import Mathlib

/-!
Verification of the Labubu availability monitor (popmart_monitor.py).

The development shallowly embeds the script: the card parser, the pagination
test, the paged fetch loop with its retry logic, the per-scan availability
diff and notification step, the JSON state store, and the continuous
monitoring loop with its interrupt handling.  Browser and file-system
effects are made explicit as parameters (environments, schedules, file
states); machine behaviour that the script observes (element lookups,
navigation failures, interrupts) is data the embedded functions consume.
-/

namespace PopmartMonitor

/-- Substring occurrence over character lists, structurally recursive. -/
def containsSub (l pat : List Char) : Bool :=
  pat.isPrefixOf l ||
    match l with
    | [] => false
    | _ :: rest => containsSub rest pat

/-- Substring test: true when pat occurs inside s; models Python's
re.search for an alternation of plain words, and the in operator. -/
def hasSub (s pat : String) : Bool :=
  containsSub s.data pat.data

/-- Python str.strip(): drop leading and trailing whitespace. -/
def pyStrip (s : String) : String :=
  ⟨((s.data.dropWhile Char.isWhitespace).reverse.dropWhile Char.isWhitespace).reverse⟩

/-- Prefix test over the underlying characters, modelling
str.startswith. -/
def pyStartsWith (s pat : String) : Bool :=
  pat.data.isPrefixOf s.data

/-- Python str.split(sep) for a one-character separator, over the
character list: always yields at least one piece. -/
def splitChar (c : Char) (l : List Char) : List (List Char) :=
  l.foldr
    (fun ch acc =>
      match acc with
      | [] => [[ch]]
      | cur :: rest => if ch = c then [] :: cur :: rest else (ch :: cur) :: rest)
    [[]]

/-- Base URL of the monitored site, from LabubbuMonitor.__init__. -/
def baseUrl : String := "https://www.popmart.com"

/-- Simplified model of urllib.parse.urljoin for the cases the script can
meet: an absolute href is kept, a site-relative href is resolved against
the fixed base URL (which has no path component). -/
def urljoin (base href : String) : String :=
  if hasSub href ("://") then href
  else if pyStartsWith href ("/") then base ++ href
  else base ++ "/" ++ href

/-- Last path segment of an href, modelling `href.split('/')[-1]`
(Python's split always yields a nonempty list, so the index is safe). -/
def lastSegment (h : String) : String :=
  ⟨(splitChar ('/') h.data).getLastD []⟩

/-- A product record, exactly the dict built by parse_product_card. -/
structure Product where
  id : String
  name : String
  url : String
  price : String
  available : Bool
  image : String
deriving DecidableEq, Repr

/-- The default product dict from the top of parse_product_card: every
string field empty, available False. -/
def Product.init : Product := ⟨"", "", "", "", false, ""⟩

/-- One rendered product card, abstracted to the results of the fixed
BeautifulSoup lookups parse_product_card performs on it:
href of `card.find('a', href=True)` (none when no such link),
text of the subtitle div `index_itemSubTitle__mX6v_`,
text of the title div `index_itemTitle__WaT6_`,
text of the price div `index_itemPrice__AQoMy`,
presence of the out-of-stock span `index_tagStyle__7EhOx`,
and the image element `img.ant-image-img` with its optional src attr. -/
structure Card where
  href : Option String
  subtitle : Option String
  title : Option String
  priceText : Option String
  oosTag : Bool
  imgElem : Option (Option String)
deriving DecidableEq, Repr

/-- Card parser with an explicit fault point.  The source wraps the whole
extraction sequence in one try/except; raiseAt = some k models an
exception thrown at extraction step k (0 = link/url/id, 1 = name,
2 = price, 3 = availability, 4 = image): steps before k run, step k and
all later steps are skipped, the except arm logs and the partially filled
record is returned.  raiseAt = none is the exception-free run. -/
def parse_product_card_ex (c : Card) (raiseAt : Option Nat) : Product :=
  let n := raiseAt.getD 5
  let p := Product.init
  let p := if 0 < n then
      match c.href with
      | some h => { p with url := urljoin baseUrl h, id := lastSegment h }
      | none => p
    else p
  let p := if 1 < n then
      match c.subtitle, c.title with
      | some s, some t => { p with name := pyStrip s ++ " - " ++ pyStrip t }
      | none, some t => { p with name := pyStrip t }
      | _, _ => p
    else p
  let p := if 2 < n then
      match c.priceText with
      | some t => { p with price := pyStrip t }
      | none => p
    else p
  let p := if 3 < n then { p with available := !c.oosTag } else p
  let p := if 4 < n then
      match c.imgElem with
      | some src => { p with image := src.getD "" }
      | none => p
    else p
  p

/-- LabubbuMonitor.parse_product_card on a well-formed card: every lookup
on a parsed soup element is total, so no exception occurs. -/
def parse_product_card (c : Card) : Product :=
  parse_product_card_ex c none

/-- A rendered HTML element: tag name, class list, children in document
order.  Text content and non-class attributes are not consulted by
has_next_page, so they are not modelled. -/
inductive Node where
  | mk (tag : String) (classes : List String) (children : List Node) : Node

/-- Tag name of a node. -/
def Node.tag : Node → String
  | .mk t _ _ => t

/-- Class list of a node. -/
def Node.classes : Node → List String
  | .mk _ cs _ => cs

/-- Children of a node, in document order. -/
def Node.children : Node → List Node
  | .mk _ _ ch => ch

mutual

/-- Pre-order (document-order) listing of a node and its descendants;
this is the order in which BeautifulSoup's find, find_all and find_next
walk the parse tree. -/
def preorder : Node → List Node
  | .mk t cs ch => .mk t cs ch :: preorderL ch

/-- Pre-order listing of a forest of sibling subtrees. -/
def preorderL : List Node → List Node
  | [] => []
  | n :: ns => preorder n ++ preorderL ns

end

/-- The pagination container test from has_next_page:
`soup.find('div', class_='index_pagination__RPTOo')`. -/
def isPaginationDiv (n : Node) : Bool :=
  n.tag == "div" && n.classes.contains ("index_pagination__RPTOo")

/-- The active-page marker test from has_next_page:
`pagination.find('span', class_=re.compile('active|current'))` — a span
one of whose classes contains active or current as a substring. -/
def isActiveSpan (n : Node) : Bool :=
  n.tag == "span" && n.classes.any (fun c => hasSub c ("active") || hasSub c ("current"))

/-- Anchor-element test, for `find_next('a')`. -/
def isAnchor (n : Node) : Bool :=
  n.tag == "a"

/-- LabubbuMonitor.has_next_page over the parsed page (a forest of
top-level nodes).  soup.find picks the first pagination div in document
order; pagination.find picks the first matching span among that div's
descendants (its contiguous block in the document-order list); and
current_page.find_next('a') looks for an anchor anywhere later in the
whole document's order, as BeautifulSoup's find_next does. -/
def has_next_page (doc : List Node) : Bool :=
  let po := preorderL doc
  match po.findIdx? isPaginationDiv with
  | none => false
  | some i =>
    match po.get? i with
    | none => false
    | some pag =>
      let desc := (po.drop (i + 1)).take ((preorder pag).length - 1)
      match desc.findIdx? isActiveSpan with
      | none => false
      | some jr => (po.drop (i + 1 + jr + 1)).any isAnchor

/-- Modelled from the spec (the claim's reading of the Pagination Walker,
for comparison with has_next_page): a next page exists exactly when some
sibling anchor control follows the active/current page marker among the
pagination container's ordered children. -/
def has_next_page_sibling_spec (doc : List Node) : Bool :=
  let po := preorderL doc
  match po.findIdx? isPaginationDiv with
  | none => false
  | some i =>
    match po.get? i with
    | none => false
    | some pag =>
      match pag.children.findIdx? isActiveSpan with
      | none => false
      | some j => (pag.children.drop (j + 1)).any isAnchor

/-- Marker for selenium's TimeoutException, raised by WebDriverWait.until
when the element never appears. -/
inductive TimeoutExc where
  | mk

/-- LabubbuMonitor.wait_for_element: runs the WebDriverWait (whose outcome
the environment supplies: ok with the element, or error on timeout),
returns the element when present, and on TimeoutException prints a
message and returns None — the exception never reaches the caller. -/
def wait_for_element (w : Except TimeoutExc Node) : Option Node :=
  match w with
  | .ok e => some e
  | .error _ => none

/-- One loaded page of search results, abstracted to what get_products
reads from it: the product cards the find_all on the card container class
yields, and the parsed soup that has_next_page inspects. -/
structure PageSrc where
  cards : List Card
  soup : List Node

/-- Outcome of one navigation attempt for one page, supplied by the
environment: navError models an exception raised by driver.get (or the
settle sleep), loaded carries the rendered page source together with the
outcome of the card-container WebDriverWait. -/
inductive NavResult where
  | navError
  | loaded (ps : PageSrc) (wait : Except TimeoutExc Node)

/-- Body of one attempt of the inner retry loop of get_products (lines
145-151): driver.get raising lands in the except arm (none); on a loaded
page the settle sleep passes, wait_for_element runs and its result is
discarded (the source does not bind it), and the attempt succeeds. -/
def attemptBody (r : NavResult) : Option PageSrc :=
  match r with
  | .navError => none
  | .loaded ps w =>
    let _ := wait_for_element w
    some ps

/-- The inner retry loop of get_products, counting attempts and the 5s
backoff sleeps.  rc is retry_count, left the attempts the
`while retry_count < max_retries` guard still allows; a failure
increments retry_count, returns when it reaches max_retries (3), and
otherwise sleeps 5 seconds before retrying.  Result: the loaded page (or
none on exhaustion), attempts consumed, and backoff seconds slept. -/
def tryLoadGo (env : Nat → Nat → NavResult) (page rc secs : Nat) : Nat → Option PageSrc × Nat × Nat
  | 0 => (none, rc, secs)
  | left + 1 =>
    match attemptBody (env page rc) with
    | some ps => (some ps, rc + 1, secs)
    | none =>
      if left = 0 then (none, rc + 1, secs)
      else tryLoadGo env page (rc + 1) (secs + 5) left

/-- Retry loop entry: retry_count starts at 0, max_retries is 3. -/
def tryLoad (env : Nat → Nat → NavResult) (page : Nat) : Option PageSrc × Nat × Nat :=
  tryLoadGo env page 0 0 3

/-- The paged scrape loop of get_products.  env gives each (page, attempt)
its navigation outcome; fuel bounds the number of pages walked (the
source's `while True` has no intrinsic bound).  Retry exhaustion returns
the products collected so far; a page with no cards ends the walk; parsed
cards are kept only when a name was extracted; pagination decides whether
to continue with page+1. -/
def get_products_aux (env : Nat → Nat → NavResult) : Nat → Nat → List Product → List Product
  | 0, _, acc => acc
  | fuel + 1, page, acc =>
    match (tryLoad env page).1 with
    | none => acc
    | some ps =>
      if ps.cards.isEmpty then acc
      else
        let acc := acc ++ (ps.cards.map parse_product_card).filter (fun p => p.name != "")
        if !has_next_page ps.soup then acc
        else get_products_aux env fuel (page + 1) acc

/-- LabubbuMonitor.get_products: the walk starts at page 1 with an empty
product list. -/
def get_products (env : Nat → Nat → NavResult) (fuel : Nat) : List Product :=
  get_products_aux env fuel 1 []

/-- Stored per-product state, the dict written at run lines 252-258.  The
ISO-8601 last_checked timestamp is abstracted to a numeric instant (the
script only ever writes datetime.now() into it). -/
structure ProductState where
  name : String
  url : String
  price : String
  available : Bool
  last_checked : Nat
deriving DecidableEq, Repr

/-- The product_states mapping, a Python dict keyed by product id,
modelled as an insertion-ordered association list. -/
def StateMap := List (String × ProductState)
deriving DecidableEq

/-- Dict read, `m.get(k)`: first entry with the key. -/
def dictGet (m : StateMap) (k : String) : Option ProductState :=
  match m with
  | [] => none
  | (k1, v) :: rest => if k1 = k then some v else dictGet rest k

/-- Dict write, `m[k] = v`: replaces in place when the key exists
(keeping its position, as Python dicts do), else appends. -/
def dictSet (m : StateMap) (k : String) (v : ProductState) : StateMap :=
  match m with
  | [] => [(k, v)]
  | (k1, v1) :: rest =>
    if k1 = k then (k, v) :: rest else (k1, v1) :: dictSet rest k v

/-- One block appended to labubu_available.log by notify_available:
timestamp, product name, price, url. -/
structure LogEntry where
  time : Nat
  name : String
  price : String
  url : String
deriving DecidableEq, Repr

/-- LabubbuMonitor.notify_available, abstracted to the log block it
appends (the console announcement carries the same data). -/
def notify_available (now : Nat) (p : Product) : LogEntry :=
  ⟨now, p.name, p.price, p.url⟩

/-- One iteration of the per-product loop of run (lines 237-258):
read the previously stored availability (missing id means previously
unavailable), notify when the product is available now but was not, and
unconditionally overwrite the stored entry with the fresh snapshot. -/
def scanStep (now : Nat) (st : StateMap × List LogEntry) (p : Product) : StateMap × List LogEntry :=
  let was := match dictGet st.1 p.id with
    | some s => s.available
    | none => false
  let log := if p.available && !was then st.2 ++ [notify_available now p] else st.2
  (dictSet st.1 p.id ⟨p.name, p.url, p.price, p.available, now⟩, log)

/-- The whole per-product loop of one scan, folding scanStep over the
scraped products in order. -/
def processScan (now : Nat) (st : StateMap × List LogEntry) (ps : List Product) : StateMap × List LogEntry :=
  ps.foldl (scanStep now) st

/-- JSON values as json.dump writes and json.load reads them, at the
level of the parsed value: object field order is preserved, and the
textual layer (indentation, formatting whitespace) is below this
abstraction.  The numeric case carries the abstracted timestamp. -/
inductive Json where
  | str (s : String)
  | bool (b : Bool)
  | num (n : Nat)
  | obj (fields : List (String × Json))

/-- JSON image of one stored product state, with the field order run
writes (lines 252-258). -/
def productStateToJson (st : ProductState) : Json :=
  .obj [("name", .str st.name), ("url", .str st.url), ("price", .str st.price),
        ("available", .bool st.available), ("last_checked", .num st.last_checked)]

/-- JSON image of the whole product_states dict. -/
def stateMapToJson (m : StateMap) : Json :=
  .obj (m.map (fun e => (e.1, productStateToJson e.2)))

/-- Reading one stored entry back from its JSON value: the shape save
writes is the only one the state file ever holds. -/
def jsonToProductState (j : Json) : Option ProductState :=
  match j with
  | .obj [("name", .str n), ("url", .str u), ("price", .str p),
          ("available", .bool a), ("last_checked", .num t)] => some ⟨n, u, p, a, t⟩
  | _ => none

/-- Reading the entry list of the state object back, entry by entry. -/
def jsonEntriesToStateMap : List (String × Json) → Option StateMap
  | [] => some []
  | (k, v) :: rest =>
    match jsonToProductState v, jsonEntriesToStateMap rest with
    | some st, some m => some ((k, st) :: m)
    | _, _ => none

/-- Interpreting a loaded JSON value as the product_states mapping. -/
def jsonToStateMap (j : Json) : Option StateMap :=
  match j with
  | .obj kvs => jsonEntriesToStateMap kvs
  | _ => none

/-- The persisted state file as load_state can find it: absent (the
os.path.exists test fails), present but unparseable (json.load raises),
or holding a parsed JSON value. -/
inductive StateFile where
  | missing
  | unparseable
  | parsed (j : Json)

/-- LabubbuMonitor.load_state: a missing file yields an empty dict, a
read or parse failure is swallowed by the bare except and also yields an
empty dict, and otherwise the parsed JSON value is returned as-is. -/
def load_state (f : StateFile) : Json :=
  match f with
  | .missing => .obj []
  | .unparseable => .obj []
  | .parsed j => j

/-- LabubbuMonitor.save_state_to_file: overwrites the file with the
pretty-printed JSON image of the mapping when save_state is set, and
leaves the file untouched otherwise. -/
def save_state_to_file (saveFlag : Bool) (m : StateMap) (f : StateFile) : StateFile :=
  if saveFlag then .parsed (stateMapToJson m) else f

/-- Where, if anywhere, the external KeyboardInterrupt arrives:
duringScan i k — inside the try of iteration i, after k products of that
scan's diff loop have been processed and before the save call runs
(this also covers an interrupt inside get_products, as k = 0);
duringSleep i — inside the inter-scan time.sleep after iteration i,
which sits outside the try/except of the loop body. -/
inductive InterruptPoint where
  | duringScan (iter k : Nat)
  | duringSleep (iter : Nat)

/-- Environment of the continuous monitoring loop: the products each
scan's get_products call returns, the clock at each iteration, and the
interrupt schedule.  Scan-level errors other than the interrupt are not
exercised by the properties below and are not scheduled. -/
structure RunEnv where
  scans : Nat → List Product
  clock : Nat → Nat
  interrupt : Option InterruptPoint

/-- Number of products of iteration iter processed before a scan-phase
interrupt there, when one is scheduled. -/
def scanInterruptAt (env : RunEnv) (iter : Nat) : Option Nat :=
  match env.interrupt with
  | some (.duringScan i k) => if i = iter then some k else none
  | _ => none

/-- Whether the interrupt is scheduled in the sleep after iteration iter. -/
def sleepInterruptAt (env : RunEnv) (iter : Nat) : Bool :=
  match env.interrupt with
  | some (.duringSleep i) => i = iter
  | _ => false

/-- Outcome of LabubbuMonitor.run: the in-memory product_states at exit,
the persisted mapping at exit, and whether the interrupt propagated past
the while loop (out of run, towards the top-level handler). -/
structure RunResult where
  mem : StateMap
  file : StateMap
  raisedPastLoop : Bool
deriving DecidableEq

/-- The while loop of LabubbuMonitor.run, fuel-bounded (without an
interrupt the source loop runs forever).  A scan-phase interrupt is
caught by the except KeyboardInterrupt arm, which breaks out of the loop
without saving, so the partially updated memory is not persisted.  A
completed scan saves (save_state is set on the monitor __main__ builds).
The sleep sits outside the try, so an interrupt there propagates out of
run with whatever was last saved still on disk. -/
def runLoop (env : RunEnv) : Nat → Nat → StateMap → StateMap → RunResult
  | 0, _, mem, file => ⟨mem, file, false⟩
  | fuel + 1, iter, mem, file =>
    match scanInterruptAt env iter with
    | some k =>
      let mem1 := (processScan (env.clock iter) (mem, []) ((env.scans iter).take k)).1
      ⟨mem1, file, false⟩
    | none =>
      let mem1 := (processScan (env.clock iter) (mem, []) (env.scans iter)).1
      let file1 := mem1
      if sleepInterruptAt env iter then ⟨mem1, file1, true⟩
      else runLoop env fuel (iter + 1) mem1 file1

/-- The continuous-mode branch of __main__: run the loop from the loaded
state (memory and file agree at start); if the interrupt escaped run, the
except KeyboardInterrupt handler at top level saves the current state
before the process exits. -/
def mainContinuous (env : RunEnv) (fuel : Nat) (init : StateMap) : RunResult :=
  let r := runLoop env fuel 0 init init
  if r.raisedPastLoop then ⟨r.mem, r.mem, true⟩ else r

/-- In-memory state after the first n full scans of the loop, each one
committed by processScan; the state the loop memory and saved file both
hold when iteration n begins (absent interrupts before n). -/
def completedScansMem (env : RunEnv) (init : StateMap) : Nat → StateMap
  | 0 => init
  | n + 1 => (processScan (env.clock n) (completedScansMem env init n, []) (env.scans n)).1

/-! Per-field views of the card parser, each one the extraction the
source performs for that field, used to state what a completed parse
yields. -/

/-- Product id as extracted at step 0: last path segment of the card
link's href, empty without a link. -/
def linkId (c : Card) : String :=
  match c.href with
  | some h => lastSegment h
  | none => ""

/-- Product url as extracted at step 0: href joined onto the base URL,
empty without a link. -/
def linkUrl (c : Card) : String :=
  match c.href with
  | some h => urljoin baseUrl h
  | none => ""

/-- Product name as extracted at step 1: subtitle and title joined with
a dash when both divs are present, the title alone when only it is,
empty otherwise. -/
def extractedName (c : Card) : String :=
  match c.subtitle, c.title with
  | some s, some t => pyStrip s ++ " - " ++ pyStrip t
  | none, some t => pyStrip t
  | _, _ => ""

/-- Product price as extracted at step 2. -/
def extractedPrice (c : Card) : String :=
  match c.priceText with
  | some t => pyStrip t
  | none => ""

/-- Product image as extracted at step 4. -/
def extractedImage (c : Card) : String :=
  match c.imgElem with
  | some src => src.getD ""
  | none => ""

/-- Field-level description of a parse interrupted at step n: each field
holds its extraction when its step ran (its index is below n) and its
default otherwise. -/
theorem parse_ex_eq (c : Card) (n : Nat) :
    parse_product_card_ex c (some n) =
      ⟨if 0 < n then linkId c else "",
       if 1 < n then extractedName c else "",
       if 0 < n then linkUrl c else "",
       if 2 < n then extractedPrice c else "",
       if 3 < n then !c.oosTag else false,
       if 4 < n then extractedImage c else ""⟩ := by
  rcases c with ⟨href, subtitle, title, priceText, oosTag, imgElem⟩
  rcases Nat.lt_or_ge n 5 with h5 | h5
  · interval_cases n <;>
      rcases href with _ | h <;> rcases subtitle with _ | s <;>
      rcases title with _ | t <;> rcases priceText with _ | pt <;>
      rcases imgElem with _ | img <;> rfl
  · obtain ⟨m, rfl⟩ : ∃ m, n = m + 5 := ⟨n - 5, by omega⟩
    have h0 : 0 < m + 5 := by omega
    have h1 : 1 < m + 5 := by omega
    have h2 : 2 < m + 5 := by omega
    have h3 : 3 < m + 5 := by omega
    have h4 : 4 < m + 5 := by omega
    rcases href with _ | h <;> rcases subtitle with _ | s <;>
      rcases title with _ | t <;> rcases priceText with _ | pt <;>
      rcases imgElem with _ | img <;>
      simp only [parse_product_card_ex, Product.init, Option.getD, linkId, linkUrl,
        extractedName, extractedPrice, extractedImage, if_pos h0, if_pos h1, if_pos h2,
        if_pos h3, if_pos h4]

/-- Field-level description of the exception-free parse. -/
theorem parse_card_eq (c : Card) :
    parse_product_card c =
      ⟨linkId c, extractedName c, linkUrl c, extractedPrice c, !c.oosTag,
       extractedImage c⟩ := by
  have h := parse_ex_eq c 5
  simpa [parse_product_card, parse_product_card_ex] using h

/-- Membership in the scrape result: every product the paged walk adds to
the accumulator passed the nonempty-name filter. -/
theorem mem_get_products_aux (env : Nat → Nat → NavResult) (fuel page : Nat)
    (acc : List Product) (p : Product)
    (hp : p ∈ get_products_aux env fuel page acc) : p ∈ acc ∨ p.name ≠ "" := by
  induction fuel generalizing page acc with
  | zero => exact Or.inl hp
  | succ fuel ih =>
    have hfilter : ∀ ps : PageSrc, ∀ q : Product,
        q ∈ acc ++ (ps.cards.map parse_product_card).filter (fun r => r.name != "") →
        q ∈ acc ∨ q.name ≠ "" := by
      intro ps q hq
      rcases List.mem_append.mp hq with h | h
      · exact Or.inl h
      · right
        have := (List.mem_filter.mp h).2
        simpa [bne] using this
    simp only [get_products_aux] at hp
    split at hp
    · exact Or.inl hp
    · split at hp
      · exact Or.inl hp
      · split at hp
        · exact hfilter _ p hp
        · rcases ih _ _ hp with h | h
          · exact hfilter _ p h
          · exact Or.inr h

/-- C5: the exception-free card parse reports a product available exactly
when the card lacks the out-of-stock tag span; a card without the tag is
always parsed as available, a card with it never is. -/
theorem c5_available_iff_no_tag (c : Card) :
    (parse_product_card c).available = true ↔ c.oosTag = false := by
  rw [parse_card_eq]
  cases h : c.oosTag <;> simp

/-- Concrete card whose extraction fails at the name step: link, name,
price, image all extractable, no out-of-stock tag. -/
def c2card : Card :=
  ⟨some ("/us/products/1707"), some ("THE MONSTERS"), some ("Labubu Pendant"),
   some ("$21.99"), false, some (some ("img.png"))⟩

/-- C2 counterexample: a failure at the name extraction step (step 1)
does not leave the remaining fields extracted — the price and the
availability of the same card come out different from the failure-free
parse, because the single try/except skips every later step. -/
theorem c2_counterexample :
    (parse_product_card_ex c2card (some 1)).price ≠ (parse_product_card c2card).price ∧
    (parse_product_card_ex c2card (some 1)).available ≠ (parse_product_card c2card).available := by
  constructor <;> decide

/-- C2 (amended): an extraction failure at step k is caught inside the
card parser — a record is still produced and nothing propagates — but it
aborts extraction of the remaining fields: every field whose step ran
before k agrees with the exception-free parse, while the failing field
and all later fields keep their defaults. -/
theorem c2_failure_aborts_rest (c : Card) (k : Nat) :
    (parse_product_card_ex c (some k)).id = (if 0 < k then (parse_product_card c).id else "") ∧
    (parse_product_card_ex c (some k)).url = (if 0 < k then (parse_product_card c).url else "") ∧
    (parse_product_card_ex c (some k)).name = (if 1 < k then (parse_product_card c).name else "") ∧
    (parse_product_card_ex c (some k)).price = (if 2 < k then (parse_product_card c).price else "") ∧
    (parse_product_card_ex c (some k)).available
      = (if 3 < k then (parse_product_card c).available else false) ∧
    (parse_product_card_ex c (some k)).image = (if 4 < k then (parse_product_card c).image else "") := by
  rw [parse_ex_eq, parse_card_eq]
  exact ⟨rfl, rfl, rfl, rfl, rfl, rfl⟩

/-- C10: the card parser is total over injected faults — a record always
comes back — and a fault at step k ≤ 3 (at or before the availability
check) leaves available at its default false and every not-yet-assigned
field at its default, so such a card is reported unavailable no matter
what its out-of-stock tag says. -/
theorem c10_fault_keeps_defaults (c : Card) (k : Nat) (hk : k ≤ 3) :
    (parse_product_card_ex c (some k)).available = false ∧
    (parse_product_card_ex c (some k)).image = "" ∧
    (k ≤ 2 → (parse_product_card_ex c (some k)).price = "") ∧
    (k ≤ 1 → (parse_product_card_ex c (some k)).name = "") ∧
    (k = 0 → (parse_product_card_ex c (some k)).id = ""
      ∧ (parse_product_card_ex c (some k)).url = "") := by
  simp only [parse_ex_eq]
  exact ⟨if_neg (by omega), if_neg (by omega), fun h => if_neg (by omega),
    fun h => if_neg (by omega), fun h => ⟨if_neg (by omega), if_neg (by omega)⟩⟩

/-- Concrete card with every field extractable and no out-of-stock tag,
for the C10 witness. -/
def c10card : Card :=
  ⟨some ("/us/products/1707"), some ("THE MONSTERS"), some ("Labubu Pendant"),
   some ("$21.99"), false, none⟩

/-- Witness for C10: a fault at the price step (step 2, before the
availability check) of a card without the out-of-stock tag yields an
unavailable product. -/
theorem c10_fault_keeps_defaults_witness :
    c10card.oosTag = false ∧ (parse_product_card_ex c10card (some 2)).available = false :=
  ⟨by decide, (c10_fault_keeps_defaults c10card 2 (by decide)).1⟩

/-- C6: the extracted name is subtitle-dash-title when both divs are
present, the title alone when only the title is, empty otherwise; and
every product in a scrape result has a nonempty name — cards whose
extracted name is empty are dropped by get_products. -/
theorem c6_name_and_exclusion :
    (∀ c : Card, (parse_product_card c).name = extractedName c) ∧
    (∀ env fuel, ∀ p ∈ get_products env fuel, p.name ≠ "") := by
  constructor
  · intro c
    rw [parse_card_eq]
  · intro env fuel p hp
    rcases mem_get_products_aux env fuel 1 [] p hp with h | h
    · cases h
    · exact h

/-- Concrete single-card page and environment for the C6 witness. -/
def cardW : Card :=
  ⟨some ("/us/products/1707"), none, some ("Labubu"), none, false, none⟩

/-- Page holding just cardW and no pagination. -/
def pageW : PageSrc := ⟨[cardW], []⟩

/-- Environment where every navigation lands on pageW at once. -/
def envW : Nat → Nat → NavResult :=
  fun _ _ => .loaded pageW (.ok (.mk ("div") [] []))

/-- The product cardW parses to. -/
def prodW : Product := parse_product_card cardW

/-- Witness for C6: the scrape of envW really contains prodW, and the
theorem gives it a nonempty name. -/
theorem c6_name_and_exclusion_witness :
    prodW ∈ get_products envW 1 ∧ prodW.name ≠ "" := by
  have hm : prodW ∈ get_products envW 1 := by
    have h : get_products envW 1 = [prodW] := by decide
    rw [h]
    exact List.mem_singleton.mpr rfl
  exact ⟨hm, c6_name_and_exclusion.2 envW 1 prodW hm⟩

/-- Reading back the key just written. -/
theorem dictGet_dictSet_self (m : StateMap) (k : String) (v : ProductState) :
    dictGet (dictSet m k v) k = some v := by
  induction m with
  | nil => simp [dictSet, dictGet]
  | cons e rest ih =>
    rcases e with ⟨k1, v1⟩
    by_cases h : k1 = k
    · simp [dictSet, dictGet, h]
    · simp [dictSet, dictGet, h, ih]

/-- Writing one key leaves every other key's entry unchanged. -/
theorem dictGet_dictSet_ne (m : StateMap) (k k2 : String) (v : ProductState)
    (h : k ≠ k2) : dictGet (dictSet m k v) k2 = dictGet m k2 := by
  induction m with
  | nil => simp [dictSet, dictGet, h]
  | cons e rest ih =>
    rcases e with ⟨k1, v1⟩
    by_cases h1 : k1 = k
    · subst h1
      simp [dictSet, dictGet, h]
    · simp [dictSet, dictGet, h1, ih]

/-- After a scan's product loop, any key of the state map either kept its
old entry untouched or holds an entry stamped with this scan's clock. -/
theorem dictGet_processScan (now : Nat) (s : StateMap) (log : List LogEntry)
    (ps : List Product) (id : String) :
    dictGet (processScan now (s, log) ps).1 id = dictGet s id ∨
    ∃ st, dictGet (processScan now (s, log) ps).1 id = some st ∧ st.last_checked = now := by
  induction ps generalizing s log with
  | nil => exact Or.inl rfl
  | cons p ps ih =>
    have hfold : processScan now (s, log) (p :: ps)
        = processScan now (scanStep now (s, log) p) ps := rfl
    rw [hfold]
    have hpair : scanStep now (s, log) p
        = ((scanStep now (s, log) p).1, (scanStep now (s, log) p).2) := rfl
    rcases ih (scanStep now (s, log) p).1 (scanStep now (s, log) p).2 with h | h
    · rw [← hpair] at h
      rw [h]
      have hs1 : (scanStep now (s, log) p).1
          = dictSet s p.id ⟨p.name, p.url, p.price, p.available, now⟩ := rfl
      rw [hs1]
      by_cases hid : p.id = id
      · subst hid
        exact Or.inr ⟨_, dictGet_dictSet_self _ _ _, rfl⟩
      · rw [dictGet_dictSet_ne _ _ _ _ hid]
        exact Or.inl rfl
    · rw [← hpair] at h
      exact Or.inr h

/-- A key some product of the scan carries is, after the loop, mapped to
an entry stamped with this scan's clock. -/
theorem dictGet_processScan_mem (now : Nat) (s : StateMap) (log : List LogEntry)
    (ps : List Product) (id : String) (h : ∃ p ∈ ps, p.id = id) :
    ∃ st, dictGet (processScan now (s, log) ps).1 id = some st ∧ st.last_checked = now := by
  induction ps generalizing s log with
  | nil => simp at h
  | cons p ps ih =>
    have hfold : processScan now (s, log) (p :: ps)
        = processScan now (scanStep now (s, log) p) ps := rfl
    have hpair : scanStep now (s, log) p
        = ((scanStep now (s, log) p).1, (scanStep now (s, log) p).2) := rfl
    by_cases hid : p.id = id
    · rw [hfold, hpair]
      rcases dictGet_processScan now (scanStep now (s, log) p).1
          (scanStep now (s, log) p).2 ps id with h2 | h2
      · rw [h2]
        have hs1 : (scanStep now (s, log) p).1
            = dictSet s p.id ⟨p.name, p.url, p.price, p.available, now⟩ := rfl
        rw [hs1, hid]
        exact ⟨_, dictGet_dictSet_self _ _ _, rfl⟩
      · exact h2
    · rcases h with ⟨q, hq, hqid⟩
      rcases List.mem_cons.mp hq with rfl | hq2
      · exact absurd hqid hid
      · rw [hfold, hpair]
        exact ih _ _ ⟨q, hq2, hqid⟩

/-- C9: under a monotone clock the last_checked stamp of a stored id
never decreases across a scan, and a scan that observes the product
stamps its entry with the scan's clock. -/
theorem c9_last_checked_monotone (now : Nat) (s : StateMap) (log : List LogEntry)
    (ps : List Product) (id : String) (st : ProductState)
    (h1 : dictGet s id = some st) (h2 : st.last_checked ≤ now) :
    (∀ st2, dictGet (processScan now (s, log) ps).1 id = some st2 →
      st.last_checked ≤ st2.last_checked) ∧
    ((∃ p ∈ ps, p.id = id) → ∃ st2,
      dictGet (processScan now (s, log) ps).1 id = some st2 ∧ st2.last_checked = now) := by
  constructor
  · intro st2 hst2
    rcases dictGet_processScan now s log ps id with h | ⟨st3, h3, hnow⟩
    · rw [hst2, h1] at h
      obtain rfl : st = st2 := by injection h.symm
      exact le_refl _
    · rw [h3] at hst2
      obtain rfl : st3 = st2 := by injection hst2
      rw [hnow]
      exact h2
  · exact dictGet_processScan_mem now s log ps id

/-- Product and prior state the C9 witness uses. -/
def p9w : Product := ⟨"id9", "Labubu", "u", "$1", true, ""⟩

/-- Prior state for the C9 witness: the id was checked at instant 3. -/
def s9w : StateMap := [("id9", ⟨"Labubu", "u", "$1", false, 3⟩)]

/-- Witness for C9: a scan at instant 5 that observes the product stamps
its entry with 5, above the stored instant 3. -/
theorem c9_last_checked_monotone_witness :
    ∃ st2, dictGet (processScan 5 (s9w, []) [p9w]).1 ("id9") = some st2
      ∧ st2.last_checked = 5 :=
  (c9_last_checked_monotone 5 s9w [] [p9w] ("id9") ⟨"Labubu", "u", "$1", false, 3⟩
    (by decide) (by decide)).2 ⟨p9w, List.mem_singleton.mpr rfl, rfl⟩

/-- C1: the notifier fires on a product exactly when it is available now
and its stored entry is absent or marked unavailable; and across three
single-product scans observing the same id unavailable, available,
available, exactly one notification fires, on the second scan, after
which the store holds available = true. -/
theorem c1_notification_edge :
    (∀ (now : Nat) (s : StateMap) (log : List LogEntry) (p : Product),
      (scanStep now (s, log) p).2 ≠ log ↔
        (p.available = true ∧ ∀ st, dictGet s p.id = some st → st.available = false)) ∧
    (∀ (s0 : StateMap) (t1 t2 t3 : Nat) (p1 p2 p3 : Product),
      p2.id = p1.id → p3.id = p1.id →
      p1.available = false → p2.available = true → p3.available = true →
      (processScan t1 (s0, []) [p1]).2 = [] ∧
      (processScan t2 ((processScan t1 (s0, []) [p1]).1, []) [p2]).2
        = [notify_available t2 p2] ∧
      dictGet (processScan t2 ((processScan t1 (s0, []) [p1]).1, []) [p2]).1 p2.id
        = some ⟨p2.name, p2.url, p2.price, true, t2⟩ ∧
      (processScan t3
        ((processScan t2 ((processScan t1 (s0, []) [p1]).1, []) [p2]).1, []) [p3]).2 = []) := by
  constructor
  · intro now s log p
    cases hd : dictGet s p.id with
    | none => cases hp : p.available <;> simp [scanStep, hd, hp]
    | some st =>
      cases hp : p.available <;> cases ha : st.available <;> simp [scanStep, hd, hp, ha]
  · intro s0 t1 t2 t3 p1 p2 p3 h21 h31 hp1 hp2 hp3
    simp [processScan, scanStep, h21, h31, hp1, hp2, hp3,
      dictGet_dictSet_self, notify_available]

/-- The unavailable first observation of the C1 witness product. -/
def p1w : Product := ⟨"idw", "Labubu A", "u1", "$10", false, ""⟩

/-- The available second observation of the C1 witness product. -/
def p2w : Product := ⟨"idw", "Labubu A", "u1", "$10", true, ""⟩

/-- The available third observation of the C1 witness product. -/
def p3w : Product := ⟨"idw", "Labubu A", "u1", "$10", true, ""⟩

/-- Witness for C1: three concrete scans from the empty store fire no
notification, then one, then none. -/
theorem c1_notification_edge_witness :
    (processScan 1 (([] : StateMap), []) [p1w]).2 = [] ∧
    (processScan 2 ((processScan 1 (([] : StateMap), []) [p1w]).1, []) [p2w]).2
      = [notify_available 2 p2w] ∧
    (processScan 3 ((processScan 2 ((processScan 1 (([] : StateMap), []) [p1w]).1, [])
      [p2w]).1, []) [p3w]).2 = [] := by
  have h := c1_notification_edge.2 [] 1 2 3 p1w p2w p3w rfl rfl rfl rfl rfl
  exact ⟨h.1, h.2.1, h.2.2.2⟩

/-- Reading one serialized product state back gives the state itself. -/
theorem jsonToProductState_roundtrip (st : ProductState) :
    jsonToProductState (productStateToJson st) = some st := by
  rcases st with ⟨n, u, p, a, t⟩
  rfl

/-- Reading the serialized entry list back gives the mapping itself. -/
theorem jsonEntries_roundtrip (m : StateMap) :
    jsonEntriesToStateMap (m.map (fun e => (e.1, productStateToJson e.2))) = some m := by
  induction m with
  | nil => rfl
  | cons e rest ih =>
    simp only [List.map, jsonEntriesToStateMap, jsonToProductState_roundtrip, ih]

/-- C7: with saving enabled, a save followed by a load recovers the exact
mapping — every key and every field — since only the textual formatting
layer sits below the JSON value the file holds; and a missing or
unparseable state file loads as the empty mapping (the empty JSON object)
with the failure swallowed. -/
theorem c7_save_load_roundtrip (m : StateMap) (f : StateFile) :
    jsonToStateMap (load_state (save_state_to_file true m f)) = some m ∧
    load_state .missing = Json.obj [] ∧
    load_state .unparseable = Json.obj [] ∧
    jsonToStateMap (Json.obj []) = some [] := by
  refine ⟨?_, rfl, rfl, rfl⟩
  simp only [save_state_to_file, if_pos, load_state, stateMapToJson, jsonToStateMap]
  exact jsonEntries_roundtrip m

/-- Card on the page whose marker wait times out, for the C3
counterexample. -/
def cardTO : Card :=
  ⟨some ("/us/products/2155"), none, some ("Labubu Fall in Wild"),
   some ("$31.99"), false, none⟩

/-- Single page carrying cardTO and no pagination. -/
def pageTO : PageSrc := ⟨[cardTO], []⟩

/-- Environment where every navigation lands but the card-container wait
times out on every attempt of every page. -/
def envTO : Nat → Nat → NavResult :=
  fun _ _ => .loaded pageTO (.error .mk)

/-- C3 counterexample: with the marker-element wait timing out on every
attempt, the fetch performs exactly one attempt with no backoff — the
timeout is caught inside wait_for_element and never signalled to the
retry loop — and the scan parses the page instead of giving up empty, so
a page-load timeout does not lead to 3 retried attempts as claimed. -/
theorem c3_counterexample :
    tryLoad envTO 1 = (some pageTO, 1, 0) ∧
    get_products envTO 1 = [parse_product_card cardTO] := by
  exact ⟨rfl, rfl⟩

/-- C3 (amended): the element-wait timeout is absorbed inside
wait_for_element, which returns None, and an attempt whose navigation
succeeded counts as loaded whatever the wait outcome; what the retry
loop does retry is navigation failure: three failing attempts exhaust
the bound after two 5-second backoffs, and the scan then returns exactly
the products collected so far. -/
theorem c3_retry_exhaustion (env : Nat → Nat → NavResult) (page fuel : Nat)
    (acc : List Product) (h : ∀ rc, rc < 3 → env page rc = NavResult.navError) :
    tryLoad env page = (none, 3, 10) ∧
    get_products_aux env (fuel + 1) page acc = acc ∧
    (∀ e, wait_for_element (Except.error e) = none) ∧
    (∀ ps w, attemptBody (NavResult.loaded ps w) = some ps) := by
  have h0 := h 0 (by omega)
  have h1 := h 1 (by omega)
  have h2 := h 2 (by omega)
  have ht : tryLoad env page = (none, 3, 10) := by
    simp [tryLoad, tryLoadGo, h0, h1, h2, attemptBody]
  refine ⟨ht, ?_, fun e => rfl, fun ps w => rfl⟩
  simp only [get_products_aux, ht]

/-- Environment where every navigation attempt raises. -/
def envFail : Nat → Nat → NavResult := fun _ _ => .navError

/-- Witness for C3 (amended): with every navigation failing, the loop
uses 3 attempts and 10 seconds of backoff and the scan keeps its
collection. -/
theorem c3_retry_exhaustion_witness :
    tryLoad envFail 1 = (none, 3, 10) ∧ get_products_aux envFail 1 1 [] = [] :=
  ⟨(c3_retry_exhaustion envFail 1 0 [] (fun _ _ => rfl)).1,
   (c3_retry_exhaustion envFail 1 0 [] (fun _ _ => rfl)).2.1⟩

/-- Document for the C4 counterexample: the pagination div holds only the
active span — no sibling follows it — while an anchor lives in a footer
after the pagination container. -/
def docX : List Node :=
  [Node.mk ("div") [("index_pagination__RPTOo")] [Node.mk ("span") [("active")] []],
   Node.mk ("footer") [] [Node.mk ("a") [] []]]

/-- C4 counterexample: has_next_page reports a next page on docX although
no sibling control follows the active marker among the pagination
container's children — find_next walks the whole document, so the footer
anchor outside the container satisfies it. -/
theorem c4_counterexample :
    has_next_page docX = true ∧ has_next_page_sibling_spec docX = false :=
  ⟨rfl, rfl⟩

/-- C4 (amended): no next page is reported when no pagination div occurs
in the document, and none when the container's descendants hold no
active/current span; when both are found, a next page is reported exactly
when an anchor element occurs anywhere later in document order after the
marker — not only among the container's remaining children. -/
theorem c4_next_page_characterization (doc : List Node) :
    ((∀ n ∈ preorderL doc, isPaginationDiv n = false) → has_next_page doc = false) ∧
    (∀ i pag, (preorderL doc).findIdx? isPaginationDiv = some i →
      (preorderL doc).get? i = some pag →
      (((((preorderL doc).drop (i + 1)).take ((preorder pag).length - 1)).findIdx?
          isActiveSpan = none → has_next_page doc = false) ∧
       (∀ jr, (((preorderL doc).drop (i + 1)).take ((preorder pag).length - 1)).findIdx?
          isActiveSpan = some jr →
        (has_next_page doc = true ↔
          ∃ n ∈ (preorderL doc).drop (i + 1 + jr + 1), n.tag = "a")))) := by
  constructor
  · intro hall
    have hnone : (preorderL doc).findIdx? isPaginationDiv = none := by
      rw [List.findIdx?_eq_none_iff]
      intro x hx
      simpa using hall x hx
    simp [has_next_page, hnone]
  · intro i pag hi hpag
    constructor
    · intro hact
      unfold has_next_page
      dsimp only
      rw [hi]
      dsimp only
      rw [hpag]
      dsimp only
      rw [hact]
    · intro jr hjr
      unfold has_next_page
      dsimp only
      rw [hi]
      dsimp only
      rw [hpag]
      dsimp only
      rw [hjr]
      dsimp only
      simp [List.any_eq_true, isAnchor]

/-- Document for the C4 witness: active span and a following sibling
anchor inside the pagination container. -/
def docW : List Node :=
  [Node.mk ("div") [("index_pagination__RPTOo")]
    [Node.mk ("span") [("active")] [], Node.mk ("a") [] []]]

/-- Witness for C4 (amended): on docW the characterization applies with
the container at index 0 and the marker at relative index 0, and the
anchor after the marker makes has_next_page true. -/
theorem c4_next_page_characterization_witness : has_next_page docW = true := by
  have h := (c4_next_page_characterization docW).2 0
    (Node.mk ("div") [("index_pagination__RPTOo")]
      [Node.mk ("span") [("active")] [], Node.mk ("a") [] []]) rfl rfl
  refine (h.2 0 rfl).mpr ⟨Node.mk ("a") [] [], ?_, rfl⟩
  show Node.mk ("a") [] [] ∈ (preorderL docW).drop 2
  have hd : (preorderL docW).drop 2 = [Node.mk ("a") [] []] := rfl
  rw [hd]
  exact List.mem_singleton.mpr rfl

/-- Run of the loop up to a sleep-phase interrupt at iteration i: every
earlier iteration completes and saves, iteration i completes and saves,
and the interrupt propagates out of the loop. -/
theorem runLoop_sleep_interrupt (env : RunEnv) (init : StateMap) (i : Nat)
    (hint : env.interrupt = some (.duringSleep i)) :
    ∀ fuel iter, iter ≤ i → i < iter + fuel →
    runLoop env fuel iter (completedScansMem env init iter) (completedScansMem env init iter)
      = ⟨completedScansMem env init (i + 1), completedScansMem env init (i + 1), true⟩ := by
  intro fuel
  induction fuel with
  | zero =>
    intro iter h1 h2
    omega
  | succ fuel ih =>
    intro iter h1 h2
    have hscan : scanInterruptAt env iter = none := by
      simp [scanInterruptAt, hint]
    by_cases hit : iter = i
    · subst hit
      have hsleep : sleepInterruptAt env iter = true := by
        simp [sleepInterruptAt, hint]
      simp only [runLoop, hscan, hsleep]
      rfl
    · have hsleep : sleepInterruptAt env iter = false := by
        simp [sleepInterruptAt, hint]
        omega
      simp only [runLoop, hscan, hsleep]
      exact ih (iter + 1) (by omega) (by omega)

/-- Run of the loop up to a scan-phase interrupt at iteration i: every
earlier iteration completes and saves, iteration i is cut after k
products, the except arm breaks without saving and nothing propagates. -/
theorem runLoop_scan_interrupt (env : RunEnv) (init : StateMap) (i k : Nat)
    (hint : env.interrupt = some (.duringScan i k)) :
    ∀ fuel iter, iter ≤ i → i < iter + fuel →
    runLoop env fuel iter (completedScansMem env init iter) (completedScansMem env init iter)
      = ⟨(processScan (env.clock i) (completedScansMem env init i, [])
            ((env.scans i).take k)).1,
         completedScansMem env init i, false⟩ := by
  intro fuel
  induction fuel with
  | zero =>
    intro iter h1 h2
    omega
  | succ fuel ih =>
    intro iter h1 h2
    by_cases hit : iter = i
    · subst hit
      have hscan : scanInterruptAt env iter = some k := by
        simp [scanInterruptAt, hint]
      simp only [runLoop, hscan]
    · have hscan : scanInterruptAt env iter = none := by
        simp [scanInterruptAt, hint]
        omega
      have hsleep : sleepInterruptAt env iter = false := by
        simp [sleepInterruptAt, hint]
      simp only [runLoop, hscan, hsleep]
      exact ih (iter + 1) (by omega) (by omega)

/-- Product observed by the C8 environments. -/
def pC8 : Product := ⟨"id8", "Labubu X", "u8", "$5", true, ""⟩

/-- Environment interrupted during the first scan, after one product was
diffed into memory. -/
def envC8 : RunEnv := ⟨fun _ => [pC8], fun i => i, some (.duringScan 0 1)⟩

/-- C8 counterexample: with the interrupt arriving mid-scan, the process
exits with the in-memory state (one fresh entry) differing from the
persisted file (still the initial empty mapping): the current state is
not persisted before exit, against the claim. -/
theorem c8_counterexample :
    (mainContinuous envC8 1 []).file ≠ (mainContinuous envC8 1 []).mem := by
  decide

/-- C8 (amended): an interrupt in the sleep phase propagates out of the
run loop to the top-level handler, which persists the current state —
file and memory agree at exit; an interrupt in the scan phase is caught
inside the loop, never raises past it, and exits with the file still
holding the last completed scan's save while memory holds the partial
updates of the cut scan. -/
theorem c8_interrupt_persistence (env : RunEnv) (fuel : Nat) (init : StateMap) :
    (∀ i, env.interrupt = some (.duringSleep i) → i < fuel →
      (mainContinuous env fuel init).raisedPastLoop = true ∧
      (mainContinuous env fuel init).mem = completedScansMem env init (i + 1) ∧
      (mainContinuous env fuel init).file = (mainContinuous env fuel init).mem) ∧
    (∀ i k, env.interrupt = some (.duringScan i k) → i < fuel →
      (mainContinuous env fuel init).raisedPastLoop = false ∧
      (mainContinuous env fuel init).mem
        = (processScan (env.clock i) (completedScansMem env init i, [])
            ((env.scans i).take k)).1 ∧
      (mainContinuous env fuel init).file = completedScansMem env init i) := by
  constructor
  · intro i hint hlt
    have h := runLoop_sleep_interrupt env init i hint fuel 0 (by omega) (by omega)
    have hmain : mainContinuous env fuel init
        = ⟨completedScansMem env init (i + 1), completedScansMem env init (i + 1), true⟩ := by
      unfold mainContinuous
      rw [show runLoop env fuel 0 init init
          = ⟨completedScansMem env init (i + 1), completedScansMem env init (i + 1), true⟩ from h]
      rfl
    rw [hmain]
    exact ⟨rfl, rfl, rfl⟩
  · intro i k hint hlt
    have h := runLoop_scan_interrupt env init i k hint fuel 0 (by omega) (by omega)
    have hmain : mainContinuous env fuel init
        = ⟨(processScan (env.clock i) (completedScansMem env init i, [])
              ((env.scans i).take k)).1, completedScansMem env init i, false⟩ := by
      unfold mainContinuous
      rw [show runLoop env fuel 0 init init
          = ⟨(processScan (env.clock i) (completedScansMem env init i, [])
                ((env.scans i).take k)).1, completedScansMem env init i, false⟩ from h]
      rfl
    rw [hmain]
    exact ⟨rfl, rfl, rfl⟩

/-- Environment interrupted during the first sleep phase. -/
def envC8s : RunEnv := ⟨fun _ => [pC8], fun i => i, some (.duringSleep 0)⟩

/-- Witness for C8 (amended): a sleep-phase interrupt leaves file and
memory equal at exit, with the interrupt having escaped the loop. -/
theorem c8_interrupt_persistence_witness :
    (mainContinuous envC8s 1 []).file = (mainContinuous envC8s 1 []).mem ∧
    (mainContinuous envC8s 1 []).raisedPastLoop = true :=
  ⟨((c8_interrupt_persistence envC8s 1 []).1 0 rfl (by omega)).2.2,
   ((c8_interrupt_persistence envC8s 1 []).1 0 rfl (by omega)).1⟩

end PopmartMonitor
